import Mathlib

/-!
Shallow embedding of the vizzy2 client (src/static/app.js): the
`VizioTVController` class and its service worker.  JavaScript values that
flow through the code are modelled by a small `Json` type with JS
truthiness and string coercion; `undefined` property reads are `Option`.
Network I/O is modelled by passing the transport outcome (`FetchResult`
for the app layer, `Option String` for the service worker's `fetch`) as
an explicit argument.  DOM writes are recorded in explicit `Display` /
toast-list fields.
-/

namespace Vizzy

/-- JSON values as the app sees them after `response.json()`. -/
inductive Json where
  | null
  | bool (b : Bool)
  | num (n : Int)
  | str (s : String)
  | obj (fields : List (String × Json))
  | arr (elems : List Json)

/-- JavaScript truthiness of a JSON value (`if (response)` etc.). -/
def Json.truthy : Json → Bool
  | .null => false
  | .bool b => b
  | .num n => n != 0
  | .str s => s != ""
  | .obj _ => true
  | .arr _ => true

mutual

/-- JavaScript string coercion of a JSON value (template literals,
`textContent` assignment). -/
def Json.render : Json → String
  | .null => "null"
  | .bool b => if b then "true" else "false"
  | .num n => toString n
  | .str s => s
  | .obj _ => "[object Object]"
  | .arr es => Json.renderList es

/-- Array string coercion: elements joined by commas. -/
def Json.renderList : List Json → String
  | [] => ""
  | [j] => Json.render j
  | j :: rest => Json.render j ++ "," ++ Json.renderList rest

end

/-- JS property access `j.key`: `none` models `undefined`. -/
def Json.getField : Json → String → Option Json
  | .obj fields, key => fields.lookup key
  | _, _ => none

/-- JS `v || d` on a possibly-undefined value: the default is taken when
the value is `undefined` or falsy. -/
def jsOr (v : Option Json) (d : Json) : Json :=
  match v with
  | none => d
  | some j => if j.truthy then j else d

/-- JS truthiness of a possibly-undefined value. -/
def jsTruthyOpt (v : Option Json) : Bool :=
  match v with
  | none => false
  | some j => j.truthy

/-- String coercion of a possibly-undefined value. -/
def renderOpt (v : Option Json) : String :=
  match v with
  | none => "undefined"
  | some j => j.render

/-- Outcome of one `fetch` at the app layer: the promise rejects
(`netError`), or a response arrives with `ok` = (status in 2xx) and
`body` = the result of parsing its body as JSON (`none` = parse error). -/
inductive FetchResult where
  | netError
  | response (ok : Bool) (body : Option Json)

/-- The kinds of exception thrown inside `makeApiRequest`'s `try` block. -/
inductive ApiError where
  | network
  | httpStatus
  | parse

/-- The `try` block of `makeApiRequest`: `await fetch(...)` (throws on
network error), the `!response.ok` check (throws on non-2xx), then
`await response.json()` (throws on parse failure). -/
def apiRequestBody (r : FetchResult) : Except ApiError Json :=
  match r with
  | .netError => .error .network
  | .response ok body =>
    if ok then
      match body with
      | some j => .ok j
      | none => .error .parse
    else .error .httpStatus

/-- `makeApiRequest`: the `catch` clause turns every exception into a
resolved `null`; a parsed 2xx body is returned as-is. -/
def makeApiRequest (r : FetchResult) : Option Json :=
  match apiRequestBody r with
  | .ok j => some j
  | .error _ => none

/-- The DOM elements the controller writes, by element id.  Slider values
are strings in the DOM (`volumeSlider.value` coerces). -/
structure Display where
  statusText : String
  statusDot : Bool
  powerStatus : String
  volumeStatus : String
  inputStatus : String
  muteStatus : String
  currentInputDisplay : String
  volumeSliderValue : String
  volumeValueText : String

/-- The mutable fields of `VizioTVController` that the session logic
reads and writes, plus the DOM state and the rendered apps grid. -/
structure Controller where
  isConnected : Bool
  tvInfo : Option Json
  display : Display
  appsGrid : Option (List String)

/-- One invocation of `makeApiRequest`, identified by endpoint, method
and JSON body (query strings are part of the endpoint, as in the
source). -/
structure ApiCall where
  endpoint : String
  method : String
  body : Option Json

/-- Observable outcome of one dispatcher invocation: the new controller
state, the `makeApiRequest` calls it made itself, the toasts it raised
(including the `Connection failed` toast raised inside
`makeApiRequest`'s catch), and whether it invoked `this.refreshStatus()`
(a separate, un-awaited async task, tracked as a flag). -/
structure DispatchResult where
  state : Controller
  calls : List ApiCall
  toasts : List String
  refreshCalled : Bool

/-- `updateStatusDisplay(tvInfo)`: render the status fields with JS
`||` defaulting, then update the slider only when `tvInfo.volume` is
not `undefined`. -/
def updateStatusDisplay (d : Display) (tvInfo : Json) : Display :=
  let powerF := tvInfo.getField "power"
  let volumeF := tvInfo.getField "volume"
  let inputF := tvInfo.getField "input"
  let mutedF := tvInfo.getField "muted"
  let d1 : Display :=
    { d with
      powerStatus := (jsOr powerF (Json.str "Unknown")).render
      volumeStatus := (jsOr volumeF (Json.num 0)).render ++ "%"
      inputStatus := (jsOr inputF (Json.str "Unknown")).render
      muteStatus := if jsTruthyOpt mutedF then "Yes" else "No"
      currentInputDisplay := (jsOr inputF (Json.str "Unknown")).render }
  if volumeF.isSome then
    { d1 with
      volumeSliderValue := renderOpt volumeF
      volumeValueText := renderOpt volumeF ++ "%" }
  else d1

/-- `refreshStatus()`: bail out when not connected, else request
`/tv/info`; a truthy parsed body replaces the snapshot wholesale and
re-renders the status display. -/
def refreshStatus (c : Controller) (net : FetchResult) :
    Controller × List ApiCall :=
  if !c.isConnected then (c, [])
  else
    let call : ApiCall := ⟨"/tv/info", "GET", none⟩
    match makeApiRequest net with
    | some j =>
      if j.truthy then
        ({ c with tvInfo := some j, display := updateStatusDisplay c.display j },
         [call])
      else (c, [call])
    | none => (c, [call])

/-- `setPower(power)`: local not-connected guard, one POST to
`/tv/power`, success toast plus a `refreshStatus()` trigger on a truthy
response. -/
def setPower (c : Controller) (power : String) (net : FetchResult) :
    DispatchResult :=
  if !c.isConnected then ⟨c, [], ["Not connected to TV"], false⟩
  else
    let call : ApiCall := ⟨"/tv/power", "POST", some (Json.obj [("power", Json.str power)])⟩
    match makeApiRequest net with
    | some j =>
      if j.truthy then ⟨c, [call], ["TV turned " ++ power], true⟩
      else ⟨c, [call], [], false⟩
    | none => ⟨c, [call], ["Connection failed"], false⟩

/-- `setVolume(volume)`: guard, one POST to `/tv/volume`, re-poll on a
truthy response. -/
def setVolume (c : Controller) (volume : Int) (net : FetchResult) :
    DispatchResult :=
  if !c.isConnected then ⟨c, [], ["Not connected to TV"], false⟩
  else
    let call : ApiCall := ⟨"/tv/volume", "POST", some (Json.obj [("volume", Json.num volume)])⟩
    match makeApiRequest net with
    | some j =>
      if j.truthy then
        ⟨c, [call], ["Volume set to " ++ toString volume ++ "%"], true⟩
      else ⟨c, [call], [], false⟩
    | none => ⟨c, [call], ["Connection failed"], false⟩

/-- `setMute(muted)`: guard, one POST to `/tv/mute?muted=...` (the flag
travels in the query string, no body), re-poll on a truthy response. -/
def setMute (c : Controller) (muted : Bool) (net : FetchResult) :
    DispatchResult :=
  if !c.isConnected then ⟨c, [], ["Not connected to TV"], false⟩
  else
    let call : ApiCall :=
      ⟨"/tv/mute?muted=" ++ (if muted then "true" else "false"), "POST", none⟩
    match makeApiRequest net with
    | some j =>
      if j.truthy then
        ⟨c, [call], [if muted then "TV muted" else "TV unmuted"], true⟩
      else ⟨c, [call], [], false⟩
    | none => ⟨c, [call], ["Connection failed"], false⟩

/-- `setInput(inputName)`: guard, one POST to `/tv/input`, re-poll on a
truthy response. -/
def setInput (c : Controller) (inputName : String) (net : FetchResult) :
    DispatchResult :=
  if !c.isConnected then ⟨c, [], ["Not connected to TV"], false⟩
  else
    let call : ApiCall :=
      ⟨"/tv/input", "POST", some (Json.obj [("input_name", Json.str inputName)])⟩
    match makeApiRequest net with
    | some j =>
      if j.truthy then ⟨c, [call], ["Switched to " ++ inputName], true⟩
      else ⟨c, [call], [], false⟩
    | none => ⟨c, [call], ["Connection failed"], false⟩

/-- `launchApp(appName)`: guard, one POST to `/tv/app`; fire-and-forget,
no `refreshStatus()` on success. -/
def launchApp (c : Controller) (appName : String) (net : FetchResult) :
    DispatchResult :=
  if !c.isConnected then ⟨c, [], ["Not connected to TV"], false⟩
  else
    let call : ApiCall :=
      ⟨"/tv/app", "POST", some (Json.obj [("app_name", Json.str appName)])⟩
    match makeApiRequest net with
    | some j =>
      if j.truthy then ⟨c, [call], ["Launching " ++ appName], false⟩
      else ⟨c, [call], [], false⟩
    | none => ⟨c, [call], ["Connection failed"], false⟩

/-- `sendRemoteKey(key)`: guard, one POST to `/tv/remote`;
fire-and-forget, no `refreshStatus()` on success.  The success toast
abbreviates the source's quoted-key template to the constant
`Key sent`; no theorem observes this field. -/
def sendRemoteKey (c : Controller) (key : String) (net : FetchResult) :
    DispatchResult :=
  if !c.isConnected then ⟨c, [], ["Not connected to TV"], false⟩
  else
    let call : ApiCall :=
      ⟨"/tv/remote", "POST", some (Json.obj [("key", Json.str key)])⟩
    match makeApiRequest net with
    | some j =>
      if j.truthy then ⟨c, [call], ["Key sent"], false⟩
      else ⟨c, [call], [], false⟩
    | none => ⟨c, [call], ["Connection failed"], false⟩

/-- `loadApps()`: one GET to `/tv/apps`; when the response and its
`apps` field are truthy the grid is rebuilt from the coerced app names
(a truthy non-array `apps` would throw in `forEach`; no claim reaches
that case, the grid is left unchanged there). -/
def loadApps (c : Controller) (net : FetchResult) :
    Controller × List ApiCall :=
  let call : ApiCall := ⟨"/tv/apps", "GET", none⟩
  match makeApiRequest net with
  | some j =>
    match j.getField "apps" with
    | some (Json.arr es) =>
      ({ c with appsGrid := some (es.map Json.render) }, [call])
    | _ => (c, [call])
  | none => (c, [call])

/-- Outcome of `testConnection()`: final state, every `makeApiRequest`
call made (directly or via `refreshStatus`/`loadApps`), the successive
`updateConnectionStatus` texts, and the toasts.  In the source
`refreshStatus()` and `loadApps()` are started without `await`
(parallel); the call list records them in program order. -/
structure ConnOut where
  state : Controller
  calls : List ApiCall
  statusTrace : List String
  toasts : List String

/-- `testConnection()`: show `Connecting...`, probe `/health`; a truthy
response sets `isConnected`, shows `Connected` and starts
`refreshStatus()` and `loadApps()`; anything else sets `Disconnected`.
The toast list records the toasts of `testConnection` itself; the
`Connection failed` toasts a failing nested `refreshStatus`/`loadApps`
raises inside `makeApiRequest` are not tracked here, and no theorem
observes `ConnOut.toasts`. -/
def testConnection (c : Controller) (netHealth netInfo netApps : FetchResult) :
    ConnOut :=
  let c0 : Controller :=
    { c with display := { c.display with statusText := "Connecting...", statusDot := false } }
  let healthCall : ApiCall := ⟨"/health", "GET", none⟩
  let fail : Controller → List String → ConnOut := fun cx ts =>
    let cd : Controller :=
      { cx with
        isConnected := false
        display := { cx.display with statusText := "Disconnected", statusDot := false } }
    ⟨cd, [healthCall], ["Connecting...", "Disconnected"], ts⟩
  match makeApiRequest netHealth with
  | some j =>
    if j.truthy then
      let c1 : Controller :=
        { c0 with
          isConnected := true
          display := { c0.display with statusText := "Connected", statusDot := true } }
      let ri := refreshStatus c1 netInfo
      let la := loadApps ri.1 netApps
      ⟨la.1, healthCall :: ri.2 ++ la.2, ["Connecting...", "Connected"],
       ["Connected to TV"]⟩
    else fail c0 ["Failed to connect"]
  | none => fail c0 ["Connection failed", "Failed to connect"]

/-- The `window 'online'` listener: a `Back online` toast and nothing
else — no state change, no probe. -/
def onlineHandler (c : Controller) : Controller × List String :=
  (c, ["Back online"])

/-- The `window 'offline'` listener: toast plus
`updateConnectionStatus('Offline', false)`; `isConnected` is untouched. -/
def offlineHandler (c : Controller) : Controller × List String :=
  ({ c with display := { c.display with statusText := "Offline", statusDot := false } },
   ["No internet connection"])

/-! ## Service worker (the `sw.js` half of the source) -/

/-- A request as the service worker sees it: URL path and method. -/
structure SWRequest where
  path : String
  method : String

def CACHE_NAME : String := "vizio-tv-controller-v1"

def urlsToCache : List String :=
  ["/", "/index.html", "/styles.css", "/app.js", "/manifest.json"]

/-- One named cache: request path ↦ cached payload.  Only GET requests
are ever stored (`cache.addAll` fetches its URLs with GET). -/
abbrev Cache := List (String × String)

/-- The CacheStorage: cache name ↦ cache.  A cache name is the
generation tag of the spec. -/
abbrev CacheStore := List (String × Cache)

/-- `caches.match(request)`: search every cache for the request.  The
Cache API matches only GET requests (no `ignoreMethod` is passed). -/
def cachesMatch (store : CacheStore) (req : SWRequest) : Option String :=
  if req.method != "GET" then none
  else store.findSome? fun nc => nc.2.lookup req.path

/-- `cache.put` for a single URL: overwrite any entry for that key. -/
def cachePut (cache : Cache) (key payload : String) : Cache :=
  cache.filter (fun e => e.1 != key) ++ [(key, payload)]

/-- `cache.addAll(urlsToCache)`: fetch each listed URL (payloads given
by `assets`) and store it. -/
def cacheAddAll (cache : Cache) (assets : String → String) : Cache :=
  urlsToCache.foldl (fun acc u => cachePut acc u (assets u)) cache

/-- `caches.open(name)` followed by an update `f` of that cache:
open-or-create semantics. -/
def storeOpen (store : CacheStore) (name : String) (f : Cache → Cache) :
    CacheStore :=
  if (store.lookup name).isSome then
    store.map fun nc => if nc.1 == name then (nc.1, f nc.2) else nc
  else store ++ [(name, f [])]

/-- The `install` listener: `caches.open(CACHE_NAME)` then
`cache.addAll(urlsToCache)`. -/
def installHandler (store : CacheStore) (assets : String → String) :
    CacheStore :=
  storeOpen store CACHE_NAME fun c => cacheAddAll c assets

/-- The `activate` listener: delete every cache whose name differs from
`CACHE_NAME`. -/
def activateHandler (store : CacheStore) : CacheStore :=
  store.filter fun nc => nc.1 == CACHE_NAME

/-- What the page receives from `event.respondWith`. -/
inductive SWResponse where
  | ok (payload : String) (fromCache : Bool)
  | failed
  deriving DecidableEq

/-- Outcome of one `fetch` listener invocation: the response delivered,
the number of network fetches attempted, and the cache store afterwards
(the listener contains no `cache.put`). -/
structure FetchOut where
  response : SWResponse
  netFetches : Nat
  store : CacheStore

/-- JS `String.prototype.startsWith`, modelled over the character
sequence of the string. -/
def jsStartsWith (s p : String) : Bool :=
  p.data.isPrefixOf s.data

/-- The classification in the `fetch` listener:
`url.pathname.startsWith('/tv/') || url.pathname === '/health'`. -/
def isApiPath (path : String) : Bool :=
  jsStartsWith path "/tv/" || path == "/health"

/-- The `fetch` listener.  `net` is the transport outcome of
`fetch(event.request)`: `none` means the promise rejects (network
failure); `some payload` is a fulfilled response of any HTTP status
(the worker never inspects the status).  API requests go network-first
with `caches.match` as the `catch` fallback; everything else goes
cache-first with the network as the miss fallback. -/
def fetchHandler (store : CacheStore) (req : SWRequest) (net : Option String) :
    FetchOut :=
  if isApiPath req.path then
    match net with
    | some p => ⟨.ok p false, 1, store⟩
    | none =>
      match cachesMatch store req with
      | some p => ⟨.ok p true, 1, store⟩
      | none => ⟨.failed, 1, store⟩
  else
    match cachesMatch store req with
    | some p => ⟨.ok p true, 0, store⟩
    | none =>
      match net with
      | some p => ⟨.ok p false, 1, store⟩
      | none => ⟨.failed, 1, store⟩

/-- The service-worker lifecycle events that touch the cache store. -/
inductive SWEvent where
  | install (assets : String → String)
  | activate
  | fetchEv (req : SWRequest) (net : Option String)

/-- Effect of one event on the cache store. -/
def swStep (store : CacheStore) : SWEvent → CacheStore
  | .install assets => installHandler store assets
  | .activate => activateHandler store
  | .fetchEv req net => (fetchHandler store req net).store

/-- Cache store reached from a fresh browser profile (empty storage)
after a sequence of events. -/
def swRun (evs : List SWEvent) : CacheStore :=
  evs.foldl swStep []

/-! ## Concrete fixtures for closed theorems -/

/-- The DOM as first rendered (slider at its HTML default). -/
def baseDisplay : Display :=
  ⟨"", false, "Unknown", "0%", "Unknown", "No", "Unknown", "50", "50%"⟩

/-- A controller whose session is Connected. -/
def connectedC : Controller := ⟨true, none, baseDisplay, none⟩

/-- A freshly constructed controller (`isConnected` starts false). -/
def freshC : Controller := ⟨false, none, baseDisplay, none⟩

/-- A 2xx transport outcome whose body parses to a truthy object. -/
def okNet : FetchResult :=
  .response true (some (Json.obj [("status", Json.str "ok")]))

/-- Cache store of a fresh profile after the install event. -/
def storeAfterInstall : CacheStore :=
  swRun [SWEvent.install (fun u => "asset:" ++ u)]

/-! ## Helper lemmas -/

/-- When connected, `refreshStatus` performs exactly the one `/tv/info`
request, whatever the transport outcome. -/
theorem refreshStatus_calls_of_connected (c : Controller) (net : FetchResult)
    (h : c.isConnected = true) :
    (refreshStatus c net).2 = [⟨"/tv/info", "GET", none⟩] := by
  cases hm : makeApiRequest net with
  | some j => cases ht : j.truthy <;> simp [refreshStatus, h, hm, ht]
  | none => simp [refreshStatus, h, hm]

/-- `refreshStatus` never changes `isConnected`. -/
theorem refreshStatus_keeps_connected (c : Controller) (net : FetchResult) :
    (refreshStatus c net).1.isConnected = c.isConnected := by
  cases hc : c.isConnected with
  | false => simp [refreshStatus, hc]
  | true =>
    cases hm : makeApiRequest net with
    | some j => cases ht : j.truthy <;> simp [refreshStatus, hc, hm, ht]
    | none => simp [refreshStatus, hc, hm]

/-- `loadApps` performs exactly the one `/tv/apps` request. -/
theorem loadApps_calls (c : Controller) (net : FetchResult) :
    (loadApps c net).2 = [⟨"/tv/apps", "GET", none⟩] := by
  cases hm : makeApiRequest net with
  | some j =>
    cases hf : j.getField "apps" with
    | some a => cases a <;> simp [loadApps, hm, hf]
    | none => simp [loadApps, hm, hf]
  | none => simp [loadApps, hm]

/-- `loadApps` never changes `isConnected`. -/
theorem loadApps_keeps_connected (c : Controller) (net : FetchResult) :
    (loadApps c net).1.isConnected = c.isConnected := by
  cases hm : makeApiRequest net with
  | some j =>
    cases hf : j.getField "apps" with
    | some a => cases a <;> simp [loadApps, hm, hf]
    | none => simp [loadApps, hm, hf]
  | none => simp [loadApps, hm]

/-! ## Claims -/

/-- C9: `makeApiRequest` is total at its call boundary: it resolves to
the parsed JSON body exactly when the transport yields a 2xx response
with a parseable body, and resolves to null in every failure case
(network error, non-2xx status, JSON parse failure); it never throws
to its callers. -/
theorem C9_makeApiRequest_total :
    ∀ (r : FetchResult),
      (∀ v, makeApiRequest r = some v ↔ r = FetchResult.response true (some v)) ∧
      (makeApiRequest r = none ↔
        (r = FetchResult.netError ∨ (∃ b, r = FetchResult.response false b) ∨
          r = FetchResult.response true none)) := by
  intro r
  cases r with
  | netError => simp [makeApiRequest, apiRequestBody]
  | response ok body =>
    cases ok <;> cases body <;> simp [makeApiRequest, apiRequestBody]

/-- C10: when the snapshot's `volume` field is undefined the volume
status text renders as `0%` while the slider and its label keep their
previous values; when `volume` is `0` the text and the slider both
show zero. -/
theorem C10_updateStatusDisplay_volume :
    ∀ (d : Display) (t : Json),
      (t.getField "volume" = none →
        (updateStatusDisplay d t).volumeStatus = "0%" ∧
        (updateStatusDisplay d t).volumeSliderValue = d.volumeSliderValue ∧
        (updateStatusDisplay d t).volumeValueText = d.volumeValueText) ∧
      (t.getField "volume" = some (Json.num 0) →
        (updateStatusDisplay d t).volumeStatus = "0%" ∧
        (updateStatusDisplay d t).volumeSliderValue = "0" ∧
        (updateStatusDisplay d t).volumeValueText = "0%") := by
  intro d t
  constructor <;> intro h <;> refine ⟨?_, ?_, ?_⟩ <;>
    · simp only [updateStatusDisplay, h, jsOr, renderOpt, Json.render, Json.truthy,
        Option.isSome_none, Option.isSome_some, Bool.false_eq_true, if_false, if_true]
      try rfl

/-- C10 witness: concrete snapshots exercising both branches. -/
theorem C10_updateStatusDisplay_volume_witness :
    (Json.obj [("power", Json.str "On")]).getField "volume" = none ∧
    (updateStatusDisplay baseDisplay (Json.obj [("power", Json.str "On")])).volumeStatus = "0%" ∧
    (updateStatusDisplay baseDisplay (Json.obj [("power", Json.str "On")])).volumeSliderValue = "50" ∧
    (Json.obj [("volume", Json.num 0)]).getField "volume" = some (Json.num 0) ∧
    (updateStatusDisplay baseDisplay (Json.obj [("volume", Json.num 0)])).volumeSliderValue = "0" := by
  refine ⟨rfl, ?_, ?_, rfl, ?_⟩
  · exact ((C10_updateStatusDisplay_volume baseDisplay
      (Json.obj [("power", Json.str "On")])).1 rfl).1
  · exact ((C10_updateStatusDisplay_volume baseDisplay
      (Json.obj [("power", Json.str "On")])).1 rfl).2.1
  · exact ((C10_updateStatusDisplay_volume baseDisplay
      (Json.obj [("volume", Json.num 0)])).2 rfl).2.1

/-- C5: every dispatcher (power, volume, mute, input, app-launch,
remote-key) invoked while not connected rejects the intent with the
`Not connected to TV` toast, leaves the state unchanged, and issues no
network call. -/
theorem C5_reject_when_not_connected :
    ∀ (c : Controller) (net : FetchResult) (p i a k : String) (v : Int) (m : Bool),
      c.isConnected = false →
      setPower c p net = ⟨c, [], ["Not connected to TV"], false⟩ ∧
      setVolume c v net = ⟨c, [], ["Not connected to TV"], false⟩ ∧
      setMute c m net = ⟨c, [], ["Not connected to TV"], false⟩ ∧
      setInput c i net = ⟨c, [], ["Not connected to TV"], false⟩ ∧
      launchApp c a net = ⟨c, [], ["Not connected to TV"], false⟩ ∧
      sendRemoteKey c k net = ⟨c, [], ["Not connected to TV"], false⟩ := by
  intro c net p i a k v m h
  simp [setPower, setVolume, setMute, setInput, launchApp, sendRemoteKey, h]

/-- C5 witness: a disconnected controller rejects a power intent. -/
theorem C5_reject_witness :
    freshC.isConnected = false ∧
    setPower freshC "on" FetchResult.netError =
      ⟨freshC, [], ["Not connected to TV"], false⟩ :=
  ⟨rfl, (C5_reject_when_not_connected freshC FetchResult.netError "on" "HDMI-1"
    "Netflix" "KEY_UP" 10 true rfl).1⟩

/-- C7: every dispatched intent sends exactly one control-plane request;
on a (truthy) success the four state-reading kinds (power, volume,
mute, input) trigger a status re-poll, while app-launch and remote-key
are fire-and-forget and never do. -/
theorem C7_single_request_and_repoll :
    ∀ (c : Controller) (net : FetchResult) (p i a k : String) (v : Int) (m : Bool),
      c.isConnected = true →
      ((setPower c p net).calls.length = 1 ∧
       (setVolume c v net).calls.length = 1 ∧
       (setMute c m net).calls.length = 1 ∧
       (setInput c i net).calls.length = 1 ∧
       (launchApp c a net).calls.length = 1 ∧
       (sendRemoteKey c k net).calls.length = 1) ∧
      (∀ j, makeApiRequest net = some j → j.truthy = true →
        (setPower c p net).refreshCalled = true ∧
        (setVolume c v net).refreshCalled = true ∧
        (setMute c m net).refreshCalled = true ∧
        (setInput c i net).refreshCalled = true) ∧
      ((launchApp c a net).refreshCalled = false ∧
       (sendRemoteKey c k net).refreshCalled = false) := by
  intro c net p i a k v m h
  refine ⟨?_, ?_, ?_⟩
  · cases hm : makeApiRequest net with
    | some j =>
      cases ht : j.truthy <;>
        simp [setPower, setVolume, setMute, setInput, launchApp, sendRemoteKey, h, hm, ht]
    | none =>
      simp [setPower, setVolume, setMute, setInput, launchApp, sendRemoteKey, h, hm]
  · intro j hj ht
    simp [setPower, setVolume, setMute, setInput, h, hj, ht]
  · cases hm : makeApiRequest net with
    | some j => cases ht : j.truthy <;> simp [launchApp, sendRemoteKey, h, hm, ht]
    | none => simp [launchApp, sendRemoteKey, h, hm]

/-- C7 witness: a connected controller, a truthy 2xx response. -/
theorem C7_witness :
    connectedC.isConnected = true ∧
    makeApiRequest okNet = some (Json.obj [("status", Json.str "ok")]) ∧
    (setPower connectedC "on" okNet).calls.length = 1 ∧
    (setPower connectedC "on" okNet).refreshCalled = true ∧
    (launchApp connectedC "Netflix" okNet).refreshCalled = false := by
  refine ⟨rfl, rfl, ?_, ?_, ?_⟩
  · exact (C7_single_request_and_repoll connectedC okNet "on" "HDMI-1" "Netflix"
      "KEY_UP" 10 true rfl).1.1
  · exact ((C7_single_request_and_repoll connectedC okNet "on" "HDMI-1" "Netflix"
      "KEY_UP" 10 true rfl).2.1 _ rfl rfl).1
  · exact (C7_single_request_and_repoll connectedC okNet "on" "HDMI-1" "Netflix"
      "KEY_UP" 10 true rfl).2.2.1

/-- C1 counterexample: a `/tv/power` transport failure while Connected
leaves `isConnected` true, and the next command is not rejected
locally — it still issues its network request (and raises no
not-connected signal). -/
theorem C1_counterexample :
    (setPower connectedC "on" FetchResult.netError).state.isConnected = true ∧
    (setVolume (setPower connectedC "on" FetchResult.netError).state 30 okNet).calls =
      [⟨"/tv/volume", "POST", some (Json.obj [("volume", Json.num 30)])⟩] ∧
    (setVolume (setPower connectedC "on" FetchResult.netError).state 30 okNet).toasts ≠
      ["Not connected to TV"] := by
  refine ⟨rfl, rfl, by decide⟩

/-- C1 amended: a transport-level failure of any command or status
request leaves the connection state unchanged — no dispatcher and no
status poll ever modifies `isConnected`, whatever the transport
outcome — so while the session reads Connected every subsequently
issued command of every kind is still dispatched to the network (one
request each); only a failed health probe (`testConnection`)
transitions the session to Disconnected, after which every command
kind is rejected locally with the not-connected signal and no network
call. -/
theorem C1_amended_thm :
    ∀ (c : Controller) (net netI netA : FetchResult) (p i a k : String) (v : Int) (m : Bool),
      ((setPower c p net).state.isConnected = c.isConnected ∧
       (setVolume c v net).state.isConnected = c.isConnected ∧
       (setMute c m net).state.isConnected = c.isConnected ∧
       (setInput c i net).state.isConnected = c.isConnected ∧
       (launchApp c a net).state.isConnected = c.isConnected ∧
       (sendRemoteKey c k net).state.isConnected = c.isConnected ∧
       (refreshStatus c net).1.isConnected = c.isConnected) ∧
      (c.isConnected = true →
        (setPower c p net).calls.length = 1 ∧
        (setVolume c v net).calls.length = 1 ∧
        (setMute c m net).calls.length = 1 ∧
        (setInput c i net).calls.length = 1 ∧
        (launchApp c a net).calls.length = 1 ∧
        (sendRemoteKey c k net).calls.length = 1) ∧
      ((testConnection c FetchResult.netError netI netA).state.isConnected = false) ∧
      (c.isConnected = false →
        ((setPower c p net).calls = [] ∧
         (setPower c p net).toasts = ["Not connected to TV"]) ∧
        ((setVolume c v net).calls = [] ∧
         (setVolume c v net).toasts = ["Not connected to TV"]) ∧
        ((setMute c m net).calls = [] ∧
         (setMute c m net).toasts = ["Not connected to TV"]) ∧
        ((setInput c i net).calls = [] ∧
         (setInput c i net).toasts = ["Not connected to TV"]) ∧
        ((launchApp c a net).calls = [] ∧
         (launchApp c a net).toasts = ["Not connected to TV"]) ∧
        ((sendRemoteKey c k net).calls = [] ∧
         (sendRemoteKey c k net).toasts = ["Not connected to TV"])) := by
  intro c net netI netA p i a k v m
  refine ⟨?_, ?_, rfl, ?_⟩
  · refine ⟨?_, ?_, ?_, ?_, ?_, ?_, refreshStatus_keeps_connected c net⟩ <;>
      · cases hm : makeApiRequest net with
        | some j =>
          cases ht : j.truthy <;> cases hc : c.isConnected <;>
            simp [setPower, setVolume, setMute, setInput, launchApp, sendRemoteKey,
              hm, ht, hc]
        | none =>
          cases hc : c.isConnected <;>
            simp [setPower, setVolume, setMute, setInput, launchApp, sendRemoteKey,
              hm, hc]
  · intro h
    cases hm : makeApiRequest net with
    | some j =>
      cases ht : j.truthy <;>
        simp [setPower, setVolume, setMute, setInput, launchApp, sendRemoteKey,
          h, hm, ht]
    | none =>
      simp [setPower, setVolume, setMute, setInput, launchApp, sendRemoteKey, h, hm]
  · intro h
    simp [setPower, setVolume, setMute, setInput, launchApp, sendRemoteKey, h]

/-- C1 amended witness: a still-connected session keeps dispatching,
a disconnected one rejects, and a failed probe disconnects, at
concrete inputs. -/
theorem C1_amended_witness :
    connectedC.isConnected = true ∧
    (setVolume connectedC 30 okNet).calls.length = 1 ∧
    freshC.isConnected = false ∧
    (setPower freshC "on" okNet).calls = [] ∧
    (testConnection connectedC FetchResult.netError okNet okNet).state.isConnected = false := by
  refine ⟨rfl, ?_, rfl, ?_, ?_⟩
  · exact ((C1_amended_thm connectedC okNet okNet okNet "on" "HDMI-1" "Netflix"
      "KEY_UP" 30 true).2.1 rfl).2.1
  · exact (((C1_amended_thm freshC okNet okNet okNet "on" "HDMI-1" "Netflix"
      "KEY_UP" 30 true).2.2.2 rfl).1).1
  · exact (C1_amended_thm connectedC okNet okNet okNet "on" "HDMI-1" "Netflix"
      "KEY_UP" 30 true).2.2.1

/-- C2 counterexample: from a Connected session, the platform offline
signal then the online signal leave the displayed status at `Offline`
and `isConnected` at true: the online handler only raises a toast —
no transition to Connecting, no fresh probe, silently still
connected. -/
theorem C2_counterexample :
    (onlineHandler (offlineHandler connectedC).1).1.display.statusText = "Offline" ∧
    (onlineHandler (offlineHandler connectedC).1).1.isConnected = true ∧
    (onlineHandler (offlineHandler connectedC).1).2 = ["Back online"] :=
  ⟨rfl, rfl, rfl⟩

/-- C2 amended: the offline listener rewrites only the displayed status
to `Offline` (leaving `isConnected` untouched), and the online listener
shows a `Back online` toast and changes nothing else — no return to
Connecting and no probe is issued. -/
theorem C2_amended_thm :
    ∀ (c : Controller),
      (offlineHandler c).1.display.statusText = "Offline" ∧
      (offlineHandler c).1.isConnected = c.isConnected ∧
      (onlineHandler c).1 = c ∧
      (onlineHandler c).2 = ["Back online"] := by
  intro c
  exact ⟨rfl, rfl, rfl, rfl⟩

/-- C6 counterexample, two parts.  First, fresh startup with the probe
succeeding and `/tv/info` failing at the transport: the whole startup
issues `/tv/info` exactly once and takes no further action — the
failed status poll is not retried.  Second, a probe that succeeds at
the HTTP level (2xx, parseable body `0`) does not yield Connected:
the code demands a truthy parsed body, so the state becomes
Disconnected. -/
theorem C6_counterexample :
    (testConnection freshC okNet FetchResult.netError okNet).calls =
      [⟨"/health", "GET", none⟩, ⟨"/tv/info", "GET", none⟩, ⟨"/tv/apps", "GET", none⟩] ∧
    (testConnection freshC okNet FetchResult.netError okNet).state.isConnected = true ∧
    (testConnection freshC (FetchResult.response true (some (Json.num 0)))
      okNet okNet).state.isConnected = false ∧
    (testConnection freshC (FetchResult.response true (some (Json.num 0)))
      okNet okNet).statusTrace = ["Connecting...", "Disconnected"] :=
  ⟨rfl, rfl, rfl, rfl⟩

/-- C6 amended: startup enters Connecting and issues the health probe;
a 2xx probe response whose parsed body is truthy yields Connected and
`/tv/info` and `/tv/apps` are each issued exactly once (in parallel in
the source), whatever their outcomes — a failure of either is ignored,
not retried, and leaves the state Connected; any other probe outcome
(transport failure, non-2xx, unparseable body, or parseable falsy
body) yields Disconnected with no further request. -/
theorem C6_amended_thm :
    ∀ (c : Controller) (netH netI netA : FetchResult),
      (∀ j, makeApiRequest netH = some j → j.truthy = true →
        (testConnection c netH netI netA).statusTrace = ["Connecting...", "Connected"] ∧
        (testConnection c netH netI netA).state.isConnected = true ∧
        (testConnection c netH netI netA).calls =
          [⟨"/health", "GET", none⟩, ⟨"/tv/info", "GET", none⟩, ⟨"/tv/apps", "GET", none⟩]) ∧
      (makeApiRequest netH = none →
        (testConnection c netH netI netA).statusTrace = ["Connecting...", "Disconnected"] ∧
        (testConnection c netH netI netA).state.isConnected = false ∧
        (testConnection c netH netI netA).calls = [⟨"/health", "GET", none⟩]) ∧
      (∀ j, makeApiRequest netH = some j → j.truthy = false →
        (testConnection c netH netI netA).statusTrace = ["Connecting...", "Disconnected"] ∧
        (testConnection c netH netI netA).state.isConnected = false ∧
        (testConnection c netH netI netA).calls = [⟨"/health", "GET", none⟩]) := by
  intro c netH netI netA
  refine ⟨?_, ?_, ?_⟩
  · intro j hj ht
    refine ⟨?_, ?_, ?_⟩ <;>
      simp [testConnection, hj, ht, refreshStatus_calls_of_connected, loadApps_calls,
        loadApps_keeps_connected, refreshStatus_keeps_connected]
  · intro hj
    refine ⟨?_, ?_, ?_⟩ <;> simp [testConnection, hj]
  · intro j hj ht
    refine ⟨?_, ?_, ?_⟩ <;> simp [testConnection, hj, ht]

/-- C6 witness: all three probe outcomes at concrete inputs. -/
theorem C6_amended_witness :
    makeApiRequest okNet = some (Json.obj [("status", Json.str "ok")]) ∧
    (Json.obj [("status", Json.str "ok")]).truthy = true ∧
    (testConnection freshC okNet okNet FetchResult.netError).calls =
      [⟨"/health", "GET", none⟩, ⟨"/tv/info", "GET", none⟩, ⟨"/tv/apps", "GET", none⟩] ∧
    makeApiRequest FetchResult.netError = none ∧
    (testConnection freshC FetchResult.netError okNet okNet).calls =
      [⟨"/health", "GET", none⟩] ∧
    makeApiRequest (FetchResult.response true (some (Json.num 0))) = some (Json.num 0) ∧
    (Json.num 0).truthy = false ∧
    (testConnection freshC (FetchResult.response true (some (Json.num 0)))
      okNet okNet).state.isConnected = false := by
  refine ⟨rfl, rfl, ?_, rfl, ?_, rfl, rfl, ?_⟩
  · exact ((C6_amended_thm freshC okNet okNet FetchResult.netError).1
      (Json.obj [("status", Json.str "ok")]) rfl rfl).2.2
  · exact ((C6_amended_thm freshC FetchResult.netError okNet okNet).2.1 rfl).2.2
  · exact ((C6_amended_thm freshC (FetchResult.response true (some (Json.num 0)))
      okNet okNet).2.2 (Json.num 0) rfl rfl).2.1

/-- C3 counterexample: a static-asset cache miss is served from the
network with exactly one fetch, but the cache is NOT populated with
the result — a second lookup of the same key still misses. -/
theorem C3_counterexample :
    (fetchHandler storeAfterInstall ⟨"/icon-192.png", "GET"⟩ (some "png-bytes")).response =
      SWResponse.ok "png-bytes" false ∧
    (fetchHandler storeAfterInstall ⟨"/icon-192.png", "GET"⟩ (some "png-bytes")).netFetches = 1 ∧
    cachesMatch
      (fetchHandler storeAfterInstall ⟨"/icon-192.png", "GET"⟩ (some "png-bytes")).store
      ⟨"/icon-192.png", "GET"⟩ = none :=
  ⟨rfl, rfl, rfl⟩

/-- C3 amended: the interceptor returns the cached entry when present
(zero network fetches); otherwise it performs exactly one network
fetch and returns the result to the caller without writing it to the
cache — the cache is populated only by the install handler. -/
theorem C3_amended_thm :
    ∀ (store : CacheStore) (req : SWRequest) (net : Option String),
      isApiPath req.path = false →
      ((∀ p, cachesMatch store req = some p →
          fetchHandler store req net = ⟨SWResponse.ok p true, 0, store⟩) ∧
       (cachesMatch store req = none →
         (fetchHandler store req net).netFetches = 1 ∧
         (fetchHandler store req net).store = store ∧
         (∀ q, net = some q →
           (fetchHandler store req net).response = SWResponse.ok q false) ∧
         (net = none → (fetchHandler store req net).response = SWResponse.failed))) := by
  intro store req net h
  constructor
  · intro p hp
    simp [fetchHandler, h, hp]
  · intro hm
    cases net with
    | some q => simp [fetchHandler, h, hm]
    | none => simp [fetchHandler, h, hm]

/-- C3 amended witness: a concrete static miss and hit. -/
theorem C3_amended_witness :
    isApiPath "/icon-192.png" = false ∧
    cachesMatch storeAfterInstall ⟨"/icon-192.png", "GET"⟩ = none ∧
    (fetchHandler storeAfterInstall ⟨"/icon-192.png", "GET"⟩ (some "png-bytes")).netFetches = 1 ∧
    cachesMatch storeAfterInstall ⟨"/app.js", "GET"⟩ = some "asset:/app.js" ∧
    fetchHandler storeAfterInstall ⟨"/app.js", "GET"⟩ none =
      ⟨SWResponse.ok "asset:/app.js" true, 0, storeAfterInstall⟩ := by
  refine ⟨rfl, rfl, ?_, rfl, ?_⟩
  · exact ((C3_amended_thm storeAfterInstall ⟨"/icon-192.png", "GET"⟩
      (some "png-bytes") rfl).2 rfl).1
  · exact (C3_amended_thm storeAfterInstall ⟨"/app.js", "GET"⟩ none rfl).1
      "asset:/app.js" rfl

/-- C4: for control-plane requests the network is attempted first and a
fulfilled response is returned as-is; when the fetch fails (rejects),
a cached response for that exact request is returned when one exists,
and otherwise the failure propagates to the page. -/
theorem C4_network_first_fallback :
    ∀ (store : CacheStore) (req : SWRequest) (net : Option String),
      isApiPath req.path = true →
      ((∀ p, net = some p →
          fetchHandler store req net = ⟨SWResponse.ok p false, 1, store⟩) ∧
       (net = none →
         (∀ q, cachesMatch store req = some q →
           (fetchHandler store req net).response = SWResponse.ok q true) ∧
         (cachesMatch store req = none →
           (fetchHandler store req net).response = SWResponse.failed))) := by
  intro store req net h
  constructor
  · intro p hp
    simp [fetchHandler, h, hp]
  · intro hm
    constructor
    · intro q hq
      simp [fetchHandler, h, hm, hq]
    · intro hq
      simp [fetchHandler, h, hm, hq]

/-- C4 witness: a concrete control-plane failure with an empty-cache
miss, and one with a network success. -/
theorem C4_witness :
    isApiPath "/tv/info" = true ∧
    cachesMatch storeAfterInstall ⟨"/tv/info", "GET"⟩ = none ∧
    (fetchHandler storeAfterInstall ⟨"/tv/info", "GET"⟩ none).response = SWResponse.failed ∧
    fetchHandler storeAfterInstall ⟨"/tv/info", "GET"⟩ (some "status-json") =
      ⟨SWResponse.ok "status-json" false, 1, storeAfterInstall⟩ := by
  refine ⟨rfl, rfl, ?_, ?_⟩
  · exact (((C4_network_first_fallback storeAfterInstall ⟨"/tv/info", "GET"⟩ none
      rfl).2 rfl).2) rfl
  · exact (C4_network_first_fallback storeAfterInstall ⟨"/tv/info", "GET"⟩
      (some "status-json") rfl).1 "status-json" rfl

/-! ## Cache-content invariant (claim C8) -/

/-- Every entry of a cache is keyed by one of the fixed static-asset
URLs. -/
def CacheOk (c : Cache) : Prop :=
  ∀ e ∈ c, e.1 ∈ urlsToCache

/-- Every cache of the store satisfies `CacheOk`. -/
def StoreOk (s : CacheStore) : Prop :=
  ∀ nc ∈ s, CacheOk nc.2

theorem cachePut_ok {c : Cache} {u p : String}
    (hu : u ∈ urlsToCache) (hc : CacheOk c) : CacheOk (cachePut c u p) := by
  intro e he
  rcases List.mem_append.mp he with hf | hs
  · exact hc e (List.mem_of_mem_filter hf)
  · rcases List.mem_singleton.mp hs with rfl
    exact hu

theorem foldl_cachePut_ok (assets : String → String) :
    ∀ (l : List String) (c : Cache), (∀ u ∈ l, u ∈ urlsToCache) → CacheOk c →
      CacheOk (l.foldl (fun acc u => cachePut acc u (assets u)) c) := by
  intro l
  induction l with
  | nil => intro c _ hc; exact hc
  | cons a t ih =>
    intro c hl hc
    exact ih (cachePut c a (assets a))
      (fun u hu => hl u (List.mem_cons_of_mem a hu))
      (cachePut_ok (hl a (List.mem_cons_self a t)) hc)

theorem cacheAddAll_ok {c : Cache} (assets : String → String)
    (hc : CacheOk c) : CacheOk (cacheAddAll c assets) :=
  foldl_cachePut_ok assets urlsToCache c (fun _ hu => hu) hc

theorem storeOpen_ok {s : CacheStore} {name : String} {f : Cache → Cache}
    (hf : ∀ c, CacheOk c → CacheOk (f c)) (hs : StoreOk s) :
    StoreOk (storeOpen s name f) := by
  intro nc hnc
  unfold storeOpen at hnc
  by_cases hex : (s.lookup name).isSome
  · simp only [hex, if_true] at hnc
    rcases List.mem_map.mp hnc with ⟨x, hx, hxe⟩
    by_cases hn : (x.1 == name) = true
    · simp only [hn, if_true] at hxe
      subst hxe
      exact hf x.2 (hs x hx)
    · simp only [hn, if_false] at hxe
      subst hxe
      exact hs x hx
  · simp only [hex, if_false] at hnc
    rcases List.mem_append.mp hnc with hin | hone
    · exact hs nc hin
    · rcases List.mem_singleton.mp hone with rfl
      exact hf [] (by intro e he; cases he)

theorem swStep_ok {s : CacheStore} (hs : StoreOk s) :
    ∀ e, StoreOk (swStep s e) := by
  intro e
  cases e with
  | install assets =>
    exact storeOpen_ok (fun c hc => cacheAddAll_ok assets hc) hs
  | activate =>
    intro nc hnc
    exact hs nc (List.mem_of_mem_filter hnc)
  | fetchEv req net =>
    have : (fetchHandler s req net).store = s := by
      unfold fetchHandler
      by_cases h : isApiPath req.path = true <;>
        simp [h] <;> cases net <;> cases cachesMatch s req <;> simp
    intro nc hnc
    rw [swStep] at hnc
    rw [this] at hnc
    exact hs nc hnc

theorem swRun_ok (evs : List SWEvent) : StoreOk (swRun evs) := by
  have general : ∀ (l : List SWEvent) (s : CacheStore), StoreOk s →
      StoreOk (l.foldl swStep s) := by
    intro l
    induction l with
    | nil => intro s hs; exact hs
    | cons a t ih => intro s hs; exact ih (swStep s a) (swStep_ok hs a)
  exact general evs [] (by intro nc hnc; cases hnc)

/-- None of the five static-asset URLs lives under `/tv/`. -/
theorem urlsToCache_not_tv : ∀ u ∈ urlsToCache, jsStartsWith u "/tv/" = false := by
  decide

theorem lookup_none_of_cacheOk {c : Cache} {p : String}
    (hc : CacheOk c) (hp : jsStartsWith p "/tv/" = true) :
    c.lookup p = none := by
  induction c with
  | nil => rfl
  | cons a t ih =>
    rcases a with ⟨k, v⟩
    have hk : k ∈ urlsToCache := hc (k, v) (List.mem_cons_self _ _)
    have hne : (p == k) = false := by
      apply beq_eq_false_iff_ne.mpr
      intro hpe
      subst hpe
      rw [urlsToCache_not_tv p hk] at hp
      cases hp
    have ht : List.lookup p t = none :=
      ih fun e he => hc e (List.mem_cons_of_mem _ he)
    simp [List.lookup, hne, ht]

theorem findSome?_lookup_none {s : CacheStore} {p : String}
    (h : ∀ nc ∈ s, nc.2.lookup p = none) :
    (s.findSome? fun nc => nc.2.lookup p) = none := by
  induction s with
  | nil => rfl
  | cons a t ih =>
    rw [List.findSome?_cons, h a (List.mem_cons_self a t)]
    exact ih fun nc hnc => h nc (List.mem_cons_of_mem a hnc)

/-- C8: under every reachable cache store — any sequence of install,
activate and fetch events from a fresh profile — a command request
(any request under `/tv/`) is never found in the cache, and every
entry ever written is keyed by one of the five fixed static-asset
URLs. -/
theorem C8_commands_never_cached :
    ∀ (evs : List SWEvent) (req : SWRequest),
      jsStartsWith req.path "/tv/" = true →
      cachesMatch (swRun evs) req = none ∧
      ∀ nc ∈ swRun evs, ∀ e ∈ nc.2, e.1 ∈ urlsToCache := by
  intro evs req hp
  have hok : StoreOk (swRun evs) := swRun_ok evs
  constructor
  · unfold cachesMatch
    by_cases hm : (req.method != "GET") = true
    · simp [hm]
    · simp only [hm, if_false]
      exact findSome?_lookup_none fun nc hnc =>
        lookup_none_of_cacheOk (hok nc hnc) hp
  · exact hok

/-- C8 witness: a concrete event sequence with an install, a `/tv/`
command fetch and an activation. -/
theorem C8_witness :
    jsStartsWith "/tv/power" "/tv/" = true ∧
    cachesMatch
      (swRun [SWEvent.install (fun u => "asset:" ++ u),
        SWEvent.fetchEv ⟨"/tv/power", "POST"⟩ none, SWEvent.activate])
      ⟨"/tv/power", "POST"⟩ = none := by
  refine ⟨by decide, ?_⟩
  exact (C8_commands_never_cached
    [SWEvent.install (fun u => "asset:" ++ u),
      SWEvent.fetchEv ⟨"/tv/power", "POST"⟩ none, SWEvent.activate]
    ⟨"/tv/power", "POST"⟩ (by decide)).1

end Vizzy
